import Mathlib

/-!
Verification of the gemelli tutorial notebooks.

The repository ships three tutorial notebook files under `ipynb/tutorials/`:
`IBD-Tutorial-QIIME2-API.ipynb`, `Phylogenetic-IBD-Tutorial-QIIME2-API.ipynb`
and `Phylogenetic-RPCA-moving-pictures.ipynb` (the last file holds two
concatenated notebook documents: a command-line tutorial followed by the
TEMPTED tutorial).  Each notebook is a finite list of code cells; each code
cell is a finite list of Python statements.  The statements are shallowly
embedded below as an inductive type whose constructors record, for every
statement actually occurring in the source, the data the claims need
(imports, warning-filter configuration, artifact and metadata loads, plugin
action calls with their arguments, accessed result fields and bound names,
visualization saves, csv reads/writes, in-memory dataframe operations, and
shell commands).  Constructors for Python statement forms that never occur
in the notebooks (function/class definitions, loops, conditionals,
try/except, raise, thread/process creation, async constructs) are included
so that their absence is a checkable property of the transcription rather
than an artifact of the grammar.

A second, semantic layer models the pandas dataframe pipelines of the
metadata cells (the subject `groupby('host_subject_id').agg(...'first')`
aggregation cells and the log-ratio merge/export cells) as total functions
on an abstract `Frame` type, so that their postconditions can be proved for
every possible input table.
-/

namespace GemelliNb

/-- A scalar value in a tabular cell: a string, a number, or a missing
value (pandas `NaN`). -/
inductive Val
  | vStr (s : String)
  | vNum (n : Int)
  | vNull
deriving DecidableEq

/-- Shallow embedding of the Python statements occurring in the notebook
code cells.  For `callAction`, `args` lists the argument expressions as
written in the source, `outs` lists the result fields the notebook
accesses, and `binds` lists the variable names the result is bound to.
For `shellQiime`, `inPaths` are the `--i-` input artifact paths, `mdPaths`
the `--m-` metadata file paths, and `outs` pairs each `--o-` output name
with its path.  The last nine constructors are Python statement forms that
never occur in the notebooks; they are part of the grammar so that their
absence is a provable property. -/
inductive PyStmt
  | importMod (m : String)
  | importFrom (m : String) (names : List String)
  | warnFilter (action category : String)
  | loadArtifact (v path : String)
  | loadMetadata (v path : String)
  | callAction (plugin action : String) (args outs binds : List String)
  | saveViz (v path : String)
  | readCsv (v path : String)
  | dfOp (op v : String) (srcs : List String)
  | display (v : String)
  | toCsv (v path : String)
  | shellCd (dir : String)
  | shellQiime (plugin action : String) (inPaths mdPaths : List String)
      (outs : List (String × String))
  | funcDef (name : String)
  | classDef (name : String)
  | forLoop
  | whileLoop
  | ifStmt
  | tryExcept
  | raiseStmt
  | withStmt
  | threadOrProcess
  | asyncAwait
deriving DecidableEq

/-- A code cell is the list of its statements. -/
abbrev Cell := List PyStmt

/-- A notebook is the list of its code cells, in order. -/
abbrev Notebook := List Cell

/-! ### Transcription of `IBD-Tutorial-QIIME2-API.ipynb` (10 code cells) -/

/-- Cell 0: imports, warning-filter configuration, artifact and metadata loads. -/
def ibdCell0 : Cell :=
  [PyStmt.importMod "os",
   PyStmt.importMod "warnings",
   PyStmt.importMod "qiime2",
   PyStmt.warnFilter "ignore" "DeprecationWarning",
   PyStmt.warnFilter "ignore" "FutureWarning",
   PyStmt.loadArtifact "table" "IBD-2538/data/table.qza",
   PyStmt.loadArtifact "rarefied_table" "IBD-2538/data/rarefied-table.qza",
   PyStmt.loadMetadata "metadata" "IBD-2538/data/metadata.tsv",
   PyStmt.loadArtifact "tree" "IBD-2538/data/sepp-insertion-tree.qza",
   PyStmt.loadArtifact "taxonomy" "IBD-2538/data/taxonomy.qza"]

/-- Cell 1: plugin action imports. -/
def ibdCell1 : Cell :=
  [PyStmt.importFrom "qiime2.plugins.gemelli.actions" ["rpca"],
   PyStmt.importFrom "qiime2.plugins.emperor.actions" ["plot", "biplot"],
   PyStmt.importFrom "qiime2.plugins.diversity.actions" ["beta_phylogenetic", "pcoa"]]

/-- Cell 2: core-metric distance/PCoA/emperor calls, the gemelli `rpca`
call, and visualization saves. -/
def ibdCell2 : Cell :=
  [PyStmt.callAction "diversity" "beta_phylogenetic"
     ["rarefied_table", "tree", "unweighted_unifrac"]
     ["distance_matrix"] ["unweighted_unifrac_distance"],
   PyStmt.callAction "diversity" "beta_phylogenetic"
     ["rarefied_table", "tree", "weighted_unifrac"]
     ["distance_matrix"] ["weighted_unifrac_distance"],
   PyStmt.callAction "diversity" "pcoa"
     ["unweighted_unifrac_distance.distance_matrix"] ["pcoa"] ["unweighted_unifrac_pcoa"],
   PyStmt.callAction "diversity" "pcoa"
     ["weighted_unifrac_distance.distance_matrix"] ["pcoa"] ["weighted_unifrac_pcoa"],
   PyStmt.callAction "emperor" "plot"
     ["unweighted_unifrac_pcoa.pcoa", "metadata"] ["visualization"]
     ["unweighted_unifrac_pcoa_plot"],
   PyStmt.callAction "emperor" "plot"
     ["weighted_unifrac_pcoa.pcoa", "metadata"] ["visualization"]
     ["weighted_unifrac_pcoa_plot"],
   PyStmt.callAction "gemelli" "rpca" ["table"]
     ["biplot", "distance_matrix"] ["rpca_biplot", "rpca_distance"],
   PyStmt.callAction "emperor" "biplot" ["rpca_biplot", "metadata"]
     ["visualization"] ["rpca_biplot_emperor"],
   PyStmt.saveViz "unweighted_unifrac_pcoa_plot"
     "IBD-2538/core-metric-output/unweighted-unifrac-distance-pcoa.qzv",
   PyStmt.saveViz "weighted_unifrac_pcoa_plot"
     "IBD-2538/core-metric-output/weighted-unifrac-distance-pcoa.qzv",
   PyStmt.saveViz "rpca_biplot_emperor" "IBD-2538/core-metric-output/RPCA-biplot.qzv"]

/-- Cell 3: the gemelli `ctf` call. -/
def ibdCell3 : Cell :=
  [PyStmt.importFrom "qiime2.plugins.gemelli.actions" ["ctf"],
   PyStmt.callAction "gemelli" "ctf"
     ["table", "metadata", "host_subject_id", "timepoint", "taxonomy"]
     ["subject_biplot"] ["ctf_results"],
   PyStmt.display "ctf_results"]

/-- Cell 4: subject metadata aggregation (`groupby('host_subject_id')`,
first-aggregation of `ibd` and `active_disease`) and export. -/
def ibdCell4 : Cell :=
  [PyStmt.importMod "pandas",
   PyStmt.importFrom "qiime2" ["Metadata"],
   PyStmt.readCsv "mf" "IBD-2538/data/metadata.tsv",
   PyStmt.dfOp "groupby_first_agg" "mf" ["mf"],
   PyStmt.dfOp "set_index_name_sampleid" "mf" ["mf"],
   PyStmt.toCsv "mf" "IBD-2538/data/subject-metadata.tsv",
   PyStmt.display "mf"]

/-- Cell 5: subject biplot via emperor. -/
def ibdCell5 : Cell :=
  [PyStmt.callAction "emperor" "biplot"
     ["ctf_results.subject_biplot", "mf", "taxonomy"] ["visualization"]
     ["subject_biplot_emperor"],
   PyStmt.saveViz "subject_biplot_emperor" "IBD-2538/ctf-results/subject_biplot.qzv"]

/-- Cell 6: qurro loading plot. -/
def ibdCell6 : Cell :=
  [PyStmt.importFrom "qiime2.plugins.qurro.actions" ["loading_plot"],
   PyStmt.callAction "qurro" "loading_plot"
     ["ctf_results.subject_biplot", "table", "metadata", "taxonomy"]
     ["visualization"] ["qurro_plot"],
   PyStmt.saveViz "qurro_plot" "IBD-2538/ctf-results/qurro.qzv"]

/-- Cell 7: merge of the exported qurro log-ratio column with the sample
metadata, drop of null log-ratio rows, column selection and export. -/
def ibdCell7 : Cell :=
  [PyStmt.importMod "pandas",
   PyStmt.readCsv "metadata_one" "IBD-2538/data/metadata.tsv",
   PyStmt.readCsv "metadata_two" "IBD-2538/ctf-results/sample_plot_data.tsv",
   PyStmt.dfOp "concat_cols" "log_ratio_metdata" ["metadata_two", "metadata_one"],
   PyStmt.dfOp "dropna_on_log_ratio" "log_ratio_metdata" ["log_ratio_metdata"],
   PyStmt.dfOp "index_astype_str" "log_ratio_metdata" ["log_ratio_metdata"],
   PyStmt.dfOp "select_four_cols" "log_ratio_metdata" ["log_ratio_metdata"],
   PyStmt.dfOp "set_index_name_sampleid" "log_ratio_metdata" ["log_ratio_metdata"],
   PyStmt.toCsv "log_ratio_metdata" "IBD-2538/ctf-results/merged_sample_plot_data.tsv",
   PyStmt.display "log_ratio_metdata"]

/-- Cell 8: volatility plot of the log-ratio time series. -/
def ibdCell8 : Cell :=
  [PyStmt.importFrom "qiime2.plugins.longitudinal.actions"
     ["volatility", "linear_mixed_effects"],
   PyStmt.callAction "longitudinal" "volatility"
     ["log_ratio_metdata", "timepoint", "host_subject_id", "ibd",
      "Current_Natural_Log_Ratio"] ["visualization"] ["temporal_plot"],
   PyStmt.saveViz "temporal_plot" "IBD-2538/ctf-results/log_ratio_plot.qzv"]

/-- Cell 9: linear mixed-effects model on the log-ratio. -/
def ibdCell9 : Cell :=
  [PyStmt.callAction "longitudinal" "linear_mixed_effects"
     ["log_ratio_metdata", "timepoint", "host_subject_id", "ibd",
      "Current_Natural_Log_Ratio"] ["visualization"] ["lme_plot"],
   PyStmt.saveViz "lme_plot" "IBD-2538/ctf-results/lme_log_ratio.qzv"]

/-- The CTF tutorial notebook `IBD-Tutorial-QIIME2-API.ipynb`. -/
def ibdNotebook : Notebook :=
  [ibdCell0, ibdCell1, ibdCell2, ibdCell3, ibdCell4,
   ibdCell5, ibdCell6, ibdCell7, ibdCell8, ibdCell9]

/-! ### Transcription of `Phylogenetic-IBD-Tutorial-QIIME2-API.ipynb` (9 code cells) -/

/-- Cell 0: identical to the CTF tutorial's first cell. -/
def phCell0 : Cell := ibdCell0

/-- Cell 1: feature filtering against the tree, then the gemelli
`phylogenetic_ctf_with_taxonomy` call. -/
def phCell1 : Cell :=
  [PyStmt.importFrom "qiime2.plugins.gemelli.actions" ["phylogenetic_ctf_with_taxonomy"],
   PyStmt.importFrom "qiime2.plugins.fragment_insertion.methods" ["filter_features"],
   PyStmt.callAction "fragment_insertion" "filter_features" ["table", "tree"]
     ["filtered_table"] ["table"],
   PyStmt.callAction "gemelli" "phylogenetic_ctf_with_taxonomy"
     ["table", "tree", "taxonomy", "metadata", "host_subject_id", "timepoint"]
     ["subject_biplot", "t2t_taxonomy", "counts_by_node_tree", "subject_table",
      "counts_by_node"] ["ctf_results"],
   PyStmt.display "ctf_results"]

/-- Cell 2: subject metadata aggregation and export (same pipeline as the
CTF tutorial, with extra imports). -/
def phCell2 : Cell :=
  [PyStmt.importMod "pandas",
   PyStmt.importFrom "qiime2" ["Metadata"],
   PyStmt.importMod "numpy",
   PyStmt.importFrom "biom" ["Table"],
   PyStmt.importFrom "skbio" ["OrdinationResults"],
   PyStmt.readCsv "mf" "IBD-2538/data/metadata.tsv",
   PyStmt.dfOp "groupby_first_agg" "mf" ["mf"],
   PyStmt.dfOp "set_index_name_sampleid" "mf" ["mf"],
   PyStmt.toCsv "mf" "IBD-2538/data/subject-metadata.tsv",
   PyStmt.display "mf"]

/-- Cell 3: in-memory combination of the t2t taxonomy with the subject
biplot feature loadings. -/
def phCell3 : Cell :=
  [PyStmt.dfOp "view_to_dataframe" "phylo_ctf_taxonomy" ["ctf_results.t2t_taxonomy"],
   PyStmt.dfOp "rename_pc_cols" "phylo_ctf_feature_loadings" ["ctf_results.subject_biplot"],
   PyStmt.dfOp "concat_cols" "phylo_ctf_taxonomy_and_loadings"
     ["phylo_ctf_taxonomy", "phylo_ctf_feature_loadings"],
   PyStmt.dfOp "set_index_name_featureid" "phylo_ctf_taxonomy_and_loadings"
     ["phylo_ctf_taxonomy_and_loadings"],
   PyStmt.display "phylo_ctf_taxonomy_and_loadings"]

/-- Cell 4: empress community plot of the subject biplot over the tree. -/
def phCell4 : Cell :=
  [PyStmt.importFrom "qiime2.plugins.empress.actions" ["community_plot"],
   PyStmt.callAction "empress" "community_plot"
     ["ctf_results.counts_by_node_tree", "ctf_results.subject_table", "mf",
      "ctf_results.subject_biplot", "phylo_ctf_taxonomy_and_loadings"]
     ["visualization"] ["joint_tree_biplot"],
   PyStmt.saveViz "joint_tree_biplot" "IBD-2538/ctf-results/empress.qzv"]

/-- Cell 5: qurro loading plot. -/
def phCell5 : Cell :=
  [PyStmt.importFrom "qiime2.plugins.qurro.actions" ["loading_plot"],
   PyStmt.callAction "qurro" "loading_plot"
     ["ctf_results.subject_biplot", "ctf_results.counts_by_node", "metadata",
      "ctf_results.t2t_taxonomy"] ["visualization"] ["qurro_plot"],
   PyStmt.saveViz "qurro_plot" "IBD-2538/ctf-results/qurro.qzv"]

/-- Cell 6: log-ratio merge and export, identical to the CTF tutorial. -/
def phCell6 : Cell := ibdCell7

/-- Cell 7: volatility plot, identical to the CTF tutorial. -/
def phCell7 : Cell := ibdCell8

/-- Cell 8: linear mixed-effects model, identical to the CTF tutorial. -/
def phCell8 : Cell := ibdCell9

/-- The phylogenetic CTF tutorial notebook
`Phylogenetic-IBD-Tutorial-QIIME2-API.ipynb`. -/
def phyloIbdNotebook : Notebook :=
  [phCell0, phCell1, phCell2, phCell3, phCell4, phCell5, phCell6, phCell7, phCell8]

/-! ### Transcription of `Phylogenetic-RPCA-moving-pictures.ipynb`
(14 code cells: 6 command-line cells, then the 8 cells of the concatenated
TEMPTED tutorial document) -/

/-- Cell 0: shell change of directory. -/
def mpCell0 : Cell := [PyStmt.shellCd "qiime2-moving-pictures-tutorial"]

/-- Cell 1: refresh of the QIIME2 command cache. -/
def mpCell1 : Cell := [PyStmt.shellQiime "dev" "refresh-cache" [] [] []]

/-- Cell 2: command-line phylogenetic RPCA. -/
def mpCell2 : Cell :=
  [PyStmt.shellQiime "gemelli" "phylogenetic-rpca-with-taxonomy"
     ["qiime2-moving-pictures-tutorial/table.qza",
      "qiime2-moving-pictures-tutorial/rooted-tree.qza"]
     ["qiime2-moving-pictures-tutorial/taxonomy.qza"]
     [("biplot", "qiime2-moving-pictures-tutorial/phylo-ordination.qza"),
      ("distance-matrix", "qiime2-moving-pictures-tutorial/phylo-distance.qza"),
      ("counts-by-node-tree", "qiime2-moving-pictures-tutorial/phylo-tree.qza"),
      ("counts-by-node", "qiime2-moving-pictures-tutorial/phylo-table.qza"),
      ("t2t-taxonomy", "qiime2-moving-pictures-tutorial/phylo-taxonomy.qza")]]

/-- Cell 3: command-line empress community plot. -/
def mpCell3 : Cell :=
  [PyStmt.shellQiime "empress" "community-plot"
     ["qiime2-moving-pictures-tutorial/phylo-tree.qza",
      "qiime2-moving-pictures-tutorial/phylo-table.qza",
      "qiime2-moving-pictures-tutorial/phylo-ordination.qza"]
     ["qiime2-moving-pictures-tutorial/sample-metadata.tsv",
      "qiime2-moving-pictures-tutorial/phylo-taxonomy.qza"]
     [("visualization", "qiime2-moving-pictures-tutorial/phylo-empress.qzv")]]

/-- Cell 4: command-line permanova significance test. -/
def mpCell4 : Cell :=
  [PyStmt.shellQiime "diversity" "beta-group-significance"
     ["qiime2-moving-pictures-tutorial/phylo-distance.qza"]
     ["qiime2-moving-pictures-tutorial/sample-metadata.tsv"]
     [("visualization",
       "qiime2-moving-pictures-tutorial/phylo-BodySite_significance.qzv")]]

/-- Cell 5: command-line qurro loading plot. -/
def mpCell5 : Cell :=
  [PyStmt.shellQiime "qurro" "loading-plot"
     ["qiime2-moving-pictures-tutorial/phylo-ordination.qza",
      "qiime2-moving-pictures-tutorial/phylo-table.qza"]
     ["qiime2-moving-pictures-tutorial/sample-metadata.tsv",
      "qiime2-moving-pictures-tutorial/phylo-taxonomy.qza"]
     [("visualization", "qiime2-moving-pictures-tutorial/phylo-qurro_plot.qzv")]]

/-- Cell 6 (TEMPTED document, cell 0): imports, warning-filter
configuration, artifact and metadata loads. -/
def mpCell6 : Cell :=
  [PyStmt.importMod "os",
   PyStmt.importMod "warnings",
   PyStmt.importMod "qiime2",
   PyStmt.warnFilter "ignore" "DeprecationWarning",
   PyStmt.warnFilter "ignore" "FutureWarning",
   PyStmt.loadArtifact "table" "ECAM-Qiita-10249/table.qza",
   PyStmt.loadMetadata "metadata" "ECAM-Qiita-10249/metadata.tsv",
   PyStmt.loadArtifact "tree" "ECAM-Qiita-10249/insertion-tree.qza",
   PyStmt.loadArtifact "taxonomy" "ECAM-Qiita-10249/taxonomy.qza"]

/-- Cell 7: gemelli `clr_transformation` then `tempted_factorize`. -/
def mpCell7 : Cell :=
  [PyStmt.importFrom "qiime2.plugins.gemelli.actions"
     ["tempted_factorize", "clr_transformation"],
   PyStmt.callAction "gemelli" "clr_transformation" ["table"]
     ["clr_table"] ["table_transformed"],
   PyStmt.callAction "gemelli" "tempted_factorize"
     ["table_transformed", "metadata", "host_subject_id", "month"]
     ["individual_biplot"] ["tempted_res"],
   PyStmt.display "tempted_res"]

/-- Cell 8: subject metadata aggregation and export (with a string cast of
the index). -/
def mpCell8 : Cell :=
  [PyStmt.importMod "pandas",
   PyStmt.importFrom "qiime2" ["Metadata"],
   PyStmt.readCsv "mf" "ECAM-Qiita-10249/metadata.tsv",
   PyStmt.dfOp "groupby_first_agg" "mf" ["mf"],
   PyStmt.dfOp "set_index_name_sampleid" "mf" ["mf"],
   PyStmt.dfOp "index_astype_str" "mf" ["mf"],
   PyStmt.toCsv "mf" "ECAM-Qiita-10249/subject-metadata.tsv",
   PyStmt.display "mf"]

/-- Cell 9: individual biplot via emperor. -/
def mpCell9 : Cell :=
  [PyStmt.importFrom "qiime2.plugins.emperor.visualizers" ["biplot"],
   PyStmt.callAction "emperor" "biplot"
     ["tempted_res.individual_biplot", "mf", "taxonomy"] ["visualization"]
     ["individual_biplot_emperor"],
   PyStmt.saveViz "individual_biplot_emperor" "ECAM-Qiita-10249/subject_biplot.qzv"]

/-- Cell 10: qurro loading plot. -/
def mpCell10 : Cell :=
  [PyStmt.importFrom "qiime2.plugins.qurro.actions" ["loading_plot"],
   PyStmt.callAction "qurro" "loading_plot"
     ["tempted_res.individual_biplot", "table", "metadata", "taxonomy"]
     ["visualization"] ["qurro_plot"],
   PyStmt.saveViz "qurro_plot" "ECAM-Qiita-10249/qurro.qzv"]

/-- Cell 11: log-ratio merge and export for the ECAM data. -/
def mpCell11 : Cell :=
  [PyStmt.importMod "pandas",
   PyStmt.readCsv "metadata_one" "ECAM-Qiita-10249/metadata.tsv",
   PyStmt.readCsv "metadata_two" "ECAM-Qiita-10249/sample_plot_data.tsv",
   PyStmt.dfOp "concat_cols" "log_ratio_metdata" ["metadata_two", "metadata_one"],
   PyStmt.dfOp "dropna_on_log_ratio" "log_ratio_metdata" ["log_ratio_metdata"],
   PyStmt.dfOp "index_astype_str" "log_ratio_metdata" ["log_ratio_metdata"],
   PyStmt.dfOp "select_four_cols" "log_ratio_metdata" ["log_ratio_metdata"],
   PyStmt.dfOp "set_index_name_sampleid" "log_ratio_metdata" ["log_ratio_metdata"],
   PyStmt.toCsv "log_ratio_metdata" "ECAM-Qiita-10249/merged_sample_plot_data.tsv",
   PyStmt.display "log_ratio_metdata"]

/-- Cell 12: volatility plot of the log-ratio time series. -/
def mpCell12 : Cell :=
  [PyStmt.importFrom "qiime2.plugins.longitudinal.actions"
     ["volatility", "linear_mixed_effects"],
   PyStmt.callAction "longitudinal" "volatility"
     ["log_ratio_metdata", "month", "host_subject_id", "delivery",
      "Current_Log_Ratio"] ["visualization"] ["temporal_plot"],
   PyStmt.saveViz "temporal_plot" "ECAM-Qiita-10249/log_ratio_plot.qzv"]

/-- Cell 13: linear mixed-effects model on the log-ratio. -/
def mpCell13 : Cell :=
  [PyStmt.callAction "longitudinal" "linear_mixed_effects"
     ["log_ratio_metdata", "month", "host_subject_id", "delivery",
      "Current_Log_Ratio"] ["visualization"] ["lme_plot"],
   PyStmt.saveViz "lme_plot" "ECAM-Qiita-10249/lme_log_ratio.qzv"]

/-- The `Phylogenetic-RPCA-moving-pictures.ipynb` file: the command-line
phylogenetic RPCA tutorial followed by the TEMPTED tutorial document. -/
def movingPicturesNotebook : Notebook :=
  [mpCell0, mpCell1, mpCell2, mpCell3, mpCell4, mpCell5, mpCell6, mpCell7,
   mpCell8, mpCell9, mpCell10, mpCell11, mpCell12, mpCell13]

/-- The three notebook files of the repository. -/
def notebooks : List Notebook :=
  [ibdNotebook, phyloIbdNotebook, movingPicturesNotebook]

/-! ### Recorded warning outputs

Each entry transcribes one warning block from a notebook's recorded stderr
streams: the python package the warn site belongs to, and the warning
category.  All recorded warn sites are files installed under
`site-packages`, i.e. external libraries. -/

/-- One warning block of a notebook's recorded stderr: the package owning
the file that issued the warning, and the warning category. -/
structure RecordedWarning where
  emitterPackage : String
  category : String
deriving DecidableEq

/-- The warnings recorded in `IBD-Tutorial-QIIME2-API.ipynb` (cell 2:
skbio PCoA negative-eigenvalue warning; cell 9: q2_longitudinal
column-overwrite warning). -/
def ibdRecordedWarnings : List RecordedWarning :=
  [⟨"skbio", "RuntimeWarning"⟩, ⟨"q2_longitudinal", "UserWarning"⟩]

/-- The warning recorded in `Phylogenetic-IBD-Tutorial-QIIME2-API.ipynb`
(cell 8: q2_longitudinal column-overwrite warning). -/
def phyloIbdRecordedWarnings : List RecordedWarning :=
  [⟨"q2_longitudinal", "UserWarning"⟩]

/-- The warning recorded in `Phylogenetic-RPCA-moving-pictures.ipynb`
(TEMPTED document cell 7: q2_longitudinal column-overwrite warning). -/
def mpRecordedWarnings : List RecordedWarning :=
  [⟨"q2_longitudinal", "UserWarning"⟩]

/-- All recorded warnings across the three notebook files. -/
def allRecordedWarnings : List RecordedWarning :=
  ibdRecordedWarnings ++ phyloIbdRecordedWarnings ++ mpRecordedWarnings

/-! ### Classification of statement effects -/

/-- The kind of effect a statement has: loading serialized data
(`load`), invoking a plugin action through the Python API or the plugin
command line (`pluginAct`), in-memory dataframe manipulation or display
(`dfDisplay`), module import (`importK`), interpreter warning-filter
configuration (`warnConfig`), writing a result file to disk
(`resultWrite`), a shell command that is not a plugin action invocation
(`shellOther`), or a control-flow/definition/concurrency statement
(`control`). -/
inductive EffectKind
  | load
  | pluginAct
  | dfDisplay
  | importK
  | warnConfig
  | resultWrite
  | shellOther
  | control
deriving DecidableEq

/-- Effect classification of each statement form.  A `qiime <plugin>
<action>` shell line is a plugin action invocation except for the
framework's own `qiime dev` command group. -/
def effectKind : PyStmt → EffectKind
  | PyStmt.importMod _ => EffectKind.importK
  | PyStmt.importFrom _ _ => EffectKind.importK
  | PyStmt.warnFilter _ _ => EffectKind.warnConfig
  | PyStmt.loadArtifact _ _ => EffectKind.load
  | PyStmt.loadMetadata _ _ => EffectKind.load
  | PyStmt.readCsv _ _ => EffectKind.load
  | PyStmt.callAction _ _ _ _ _ => EffectKind.pluginAct
  | PyStmt.saveViz _ _ => EffectKind.resultWrite
  | PyStmt.toCsv _ _ => EffectKind.resultWrite
  | PyStmt.dfOp _ _ _ => EffectKind.dfDisplay
  | PyStmt.display _ => EffectKind.dfDisplay
  | PyStmt.shellCd _ => EffectKind.shellOther
  | PyStmt.shellQiime p _ _ _ _ =>
      if p = "dev" then EffectKind.shellOther else EffectKind.pluginAct
  | _ => EffectKind.control

/-- The external interface channel(s) a statement touches: the plugin
framework's serialized artifact format (`artifactFmt`), a command-line
plugin action invocation (`pluginCli`), a tab-separated metadata file
(`tsvFile`), or some other channel (`otherChan`). -/
inductive Channel
  | artifactFmt
  | pluginCli
  | tsvFile
  | otherChan
deriving DecidableEq

/-- The environment channels each statement interacts through.  Pure
in-memory statements (imports, warning filters, Python API calls on
in-memory artifacts, dataframe operations, displays) touch none. -/
def envChannels : PyStmt → List Channel
  | PyStmt.loadArtifact _ _ => [Channel.artifactFmt]
  | PyStmt.saveViz _ _ => [Channel.artifactFmt]
  | PyStmt.loadMetadata _ _ => [Channel.tsvFile]
  | PyStmt.readCsv _ _ => [Channel.tsvFile]
  | PyStmt.toCsv _ _ => [Channel.tsvFile]
  | PyStmt.shellCd _ => [Channel.otherChan]
  | PyStmt.shellQiime p _ _ _ _ =>
      if p = "dev" then [Channel.otherChan] else [Channel.pluginCli]
  | _ => []

/-- A statement is a control-flow, definition, or recursion-enabling
statement (none of these occur in the notebooks). -/
def isControlStmt : PyStmt → Bool
  | PyStmt.funcDef _ => true
  | PyStmt.classDef _ => true
  | PyStmt.forLoop => true
  | PyStmt.whileLoop => true
  | PyStmt.ifStmt => true
  | PyStmt.tryExcept => true
  | PyStmt.raiseStmt => true
  | PyStmt.withStmt => true
  | _ => false

/-- A statement catches, raises or installs a handler for errors. -/
def isErrCatchOrRaise : PyStmt → Bool
  | PyStmt.tryExcept => true
  | PyStmt.raiseStmt => true
  | _ => false

/-- A statement processes (suppresses, catches, raises or handles) errors
or warnings. -/
def processesErrWarn : PyStmt → Bool
  | PyStmt.tryExcept => true
  | PyStmt.raiseStmt => true
  | PyStmt.warnFilter _ _ => true
  | _ => false

/-- A statement introduces concurrency (thread/process creation or
asynchronous execution). -/
def isConcurrencyStmt : PyStmt → Bool
  | PyStmt.threadOrProcess => true
  | PyStmt.asyncAwait => true
  | _ => false

/-! ### File-system effects and sequential semantics -/

/-- The file paths a statement reads as inputs. -/
def stmtReads : PyStmt → List String
  | PyStmt.loadArtifact _ p => [p]
  | PyStmt.loadMetadata _ p => [p]
  | PyStmt.readCsv _ p => [p]
  | PyStmt.shellQiime _ _ ins mds _ => ins ++ mds
  | _ => []

/-- The file paths a statement writes. -/
def stmtWrites : PyStmt → List String
  | PyStmt.saveViz _ p => [p]
  | PyStmt.toCsv _ p => [p]
  | PyStmt.shellQiime _ _ _ _ outs => outs.map Prod.snd
  | _ => []

/-- All paths a notebook reads as inputs. -/
def nbReads (nb : Notebook) : List String := (nb.flatten.map stmtReads).flatten

/-- All paths a notebook writes. -/
def nbWrites (nb : Notebook) : List String := (nb.flatten.map stmtWrites).flatten

/-- The file-system state: the list of paths written so far. -/
abbrev FsState := List String

/-- Effect of one statement on the file-system state. -/
def runStmt (s : FsState) (st : PyStmt) : FsState := s ++ stmtWrites st

/-- Effect of one cell: its statements run in order. -/
def runCell (s : FsState) (c : Cell) : FsState := c.foldl runStmt s

/-- Effect of a notebook: its cells run in order. -/
def runNotebook (s : FsState) (nb : Notebook) : FsState := nb.foldl runCell s

/-! ### Gemelli action invocations -/

/-- The gemelli actions a notebook invokes through the plugin framework's
Python API, paired with the result fields the notebook accesses. -/
def gemelliPyCalls (nb : Notebook) : List (String × List String) :=
  nb.flatten.filterMap fun s =>
    match s with
    | PyStmt.callAction "gemelli" a _ outs _ => some (a, outs)
    | _ => none

/-- The gemelli actions a notebook invokes through the command-line
interface, paired with the names of the `--o-` outputs. -/
def gemelliCliCalls (nb : Notebook) : List (String × List String) :=
  nb.flatten.filterMap fun s =>
    match s with
    | PyStmt.shellQiime "gemelli" a _ _ outs => some (a, outs.map Prod.fst)
    | _ => none

/-- The result names under which the gemelli actions expose an ordination
biplot (the Python API result fields `biplot`, `subject_biplot`,
`individual_biplot` and the command-line output `--o-biplot`). -/
def biplotOutNames : List String := ["biplot", "subject_biplot", "individual_biplot"]

/-- A gemelli invocation is a factorization run when it produces an
ordination biplot the notebook uses. -/
def isFactorizationCall (c : String × List String) : Bool :=
  c.2.any (fun o => biplotOutNames.contains o)

/-- The gemelli factorization actions a notebook runs (through either
channel). -/
def factActions (nb : Notebook) : List String :=
  ((gemelliPyCalls nb ++ gemelliCliCalls nb).filter isFactorizationCall).map Prod.fst

/-- The distinct gemelli factorization actions run across the three
notebook files. -/
def factActionsAll : List String := ((notebooks.map factActions).flatten).dedup

/-- The gemelli actions corresponding to the four factorization methods
the specification names: CTF, Phylogenetic CTF, Phylogenetic Robust PCA
(command-line spelling) and TEMPTED. -/
def fourNamedActions : List String :=
  ["ctf", "phylogenetic_ctf_with_taxonomy", "phylogenetic-rpca-with-taxonomy",
   "tempted_factorize"]

/-- The gemelli action names a notebook imports from
`qiime2.plugins.gemelli.actions`. -/
def gemelliImports (nb : Notebook) : List String :=
  (nb.flatten.filterMap fun s =>
    match s with
    | PyStmt.importFrom "qiime2.plugins.gemelli.actions" names => some names
    | _ => none).flatten

/-- Every gemelli action a notebook calls through the Python API was
brought in (in some cell of that notebook) by an import from the external
plugin package. -/
def gemelliCallsImported (nb : Notebook) : Bool :=
  (gemelliPyCalls nb).all fun c => (gemelliImports nb).contains c.1

/-! ### Data-flow chaining predicates -/

/-- Some cell satisfying `p` occurs strictly before some cell satisfying
`q`. -/
def existsChain (p q : Cell → Bool) : Notebook → Bool
  | [] => false
  | c :: cs => (p c && cs.any q) || existsChain p q cs

/-- The statement calls the given plugin action (Python API) with the
given expression among its arguments. -/
def stmtCallsWithArg (plugin action arg : String) : PyStmt → Bool
  | PyStmt.callAction p a args _ _ => p = plugin && a = action && args.contains arg
  | _ => false

/-- The cell calls the given plugin action with the given argument. -/
def cellCallsWithArg (plugin action arg : String) (c : Cell) : Bool :=
  c.any (stmtCallsWithArg plugin action arg)

/-- The statement is a gemelli Python API call binding variable `v` and
exposing result field `out`. -/
def stmtFactBinds (v out : String) : PyStmt → Bool
  | PyStmt.callAction "gemelli" _ _ outs binds =>
      binds.contains v && outs.contains out
  | _ => false

/-- The cell runs a gemelli factorization bound to `v` with result field
`out`. -/
def cellFactBinds (v out : String) (c : Cell) : Bool := c.any (stmtFactBinds v out)

/-- The cell reads the given file path. -/
def cellReadsPath (p : String) (c : Cell) : Bool :=
  c.any fun s => (stmtReads s).contains p

/-- The statement is a command-line invocation producing the given output
path. -/
def stmtCliProduces (p : String) : PyStmt → Bool
  | PyStmt.shellQiime _ _ _ _ outs => (outs.map Prod.snd).contains p
  | _ => false

/-- The statement is a command-line invocation of the given plugin action
consuming the given path as an input artifact. -/
def stmtCliConsumes (plugin action p : String) : PyStmt → Bool
  | PyStmt.shellQiime pl a ins _ _ => pl = plugin && a = action && ins.contains p
  | _ => false

/-- Python API chaining of factorization results: the gemelli
factorization bound to `v` (with biplot field `out`) is later passed to
the given ordination-plotting action and later passed to qurro's
`loading_plot`; the qurro cell precedes the cell reading the exported
`samplePlot` file; and that cell precedes a `linear_mixed_effects` call
taking the log-ratio column `lr` as its metric. -/
def apiChain (v out plotPlugin plotAction lr samplePlot : String)
    (nb : Notebook) : Bool :=
  let bp := v ++ "." ++ out
  existsChain (cellFactBinds v out) (cellCallsWithArg plotPlugin plotAction bp) nb
  && existsChain (cellFactBinds v out) (cellCallsWithArg "qurro" "loading_plot" bp) nb
  && existsChain (cellCallsWithArg "qurro" "loading_plot" bp) (cellReadsPath samplePlot) nb
  && existsChain (cellReadsPath samplePlot)
       (fun c => cellCallsWithArg "longitudinal" "linear_mixed_effects" lr c) nb

/-- Command-line chaining for the moving-pictures document: the ordination
produced by `phylogenetic-rpca-with-taxonomy` is later consumed by the
empress community plot and by the qurro loading plot. -/
def cliChain (ordPath : String) (nb : Notebook) : Bool :=
  existsChain (fun c => c.any (stmtCliProduces ordPath))
    (fun c => c.any (stmtCliConsumes "empress" "community-plot" ordPath)) nb
  && existsChain (fun c => c.any (stmtCliProduces ordPath))
    (fun c => c.any (stmtCliConsumes "qurro" "loading-plot" ordPath)) nb

/-! ### Semantics of the pandas metadata pipelines

A `Frame` models a pandas dataframe read from a tab-separated file: an
index name, a column list, and rows carrying an index value and an
association list from column names to values.  The operations below model
exactly the pandas calls the notebooks' metadata cells perform. -/

/-- The entries of one dataframe row: column name to value. -/
abbrev Entries := List (String × Val)

/-- A dataframe: index name, columns in order, and rows (index value and
entries). -/
structure Frame where
  indexName : String
  cols : List String
  rows : List (Val × Entries)
deriving DecidableEq

/-- Look up a column's value in a row's entries (first match). -/
def rowGet (c : String) : Entries → Option Val
  | [] => none
  | (k, v) :: es => if k = c then some v else rowGet c es

/-- The entries of the row of `f` indexed by `k`; when `k` is absent, a
row of nulls in `f`'s columns (pandas reindexing fill). -/
def rowFor (f : Frame) (k : Val) : Entries :=
  match f.rows.find? (fun r => decide (r.1 = k)) with
  | some r => r.2
  | none => f.cols.map fun c => (c, Val.vNull)

/-- The index values of a frame. -/
def keys (f : Frame) : List Val := f.rows.map Prod.fst

/-- Column selection `f[cs]`: keeps the given columns in the given order
(missing values become null). -/
def selectCols (cs : List String) (f : Frame) : Frame :=
  { indexName := f.indexName, cols := cs,
    rows := f.rows.map fun r => (r.1, cs.map fun c => (c, (rowGet c r.2).getD Val.vNull)) }

/-- `pd.concat([a, b], axis=1)`: outer join on the index, columns of `a`
then columns of `b`, rows aligned by index value. -/
def concatCols (a b : Frame) : Frame :=
  { indexName := a.indexName, cols := a.cols ++ b.cols,
    rows := (keys a ++ (keys b).filter (fun k => decide (k ∉ keys a))).map
      fun k => (k, rowFor a k ++ rowFor b k) }

/-- The row has a present, non-null value in column `c`. -/
def presentNonNull (c : String) (e : Entries) : Bool :=
  match rowGet c e with
  | some Val.vNull => false
  | some _ => true
  | none => false

/-- `df.dropna(subset=[c])`: drops every row whose value in `c` is
missing. -/
def dropnaOn (c : String) (f : Frame) : Frame :=
  { f with rows := f.rows.filter fun r => presentNonNull c r.2 }

/-- `df.index.name = n`. -/
def setIdxName (n : String) (f : Frame) : Frame := { f with indexName := n }

/-- String rendering of a value (pandas `astype(str)`). -/
def valToStr : Val → Val
  | Val.vStr s => Val.vStr s
  | Val.vNum n => Val.vStr (toString n)
  | Val.vNull => Val.vStr "nan"

/-- `df.index = df.index.astype(str)`. -/
def idxToStr (f : Frame) : Frame :=
  { f with rows := f.rows.map fun r => (valToStr r.1, r.2) }

/-- The log-ratio merge/export cell (cells `ibdCell7`, `phCell6`,
`mpCell11`): select the log-ratio column of the qurro export, concatenate
with the sample metadata on the index, drop rows with a null log-ratio,
cast the index to strings, select the four export columns, and name the
index `#SampleID`.  `stateCol`/`groupCol`/`lrCol` are the notebook's state
column, group column and log-ratio column. -/
def mergeExport (stateCol groupCol lrCol : String) (metadataOne metadataTwo : Frame) :
    Frame :=
  let m2 := selectCols [lrCol] metadataTwo
  let merged := concatCols m2 metadataOne
  let merged := dropnaOn lrCol merged
  let merged := idxToStr merged
  let merged := selectCols [stateCol, "host_subject_id", groupCol, lrCol] merged
  setIdxName "#SampleID" merged

/-- The non-null values of column `key` over the rows of `f`, in row
order, with repetitions. -/
def keyValsRaw (key : String) (f : Frame) : List Val :=
  f.rows.filterMap fun r =>
    match rowGet key r.2 with
    | some Val.vNull => none
    | some v => some v
    | none => none

/-- The distinct non-null values of column `key`, in order of first
appearance (pandas `groupby` drops null keys). -/
def distinctKeyVals (key : String) (f : Frame) : List Val :=
  (keyValsRaw key f).dedup

/-- The non-null values of column `col` among the rows whose `key` column
equals `kv`, in row order. -/
def groupColVals (key : String) (kv : Val) (col : String) (f : Frame) : List Val :=
  (f.rows.filter fun r => decide (rowGet key r.2 = some kv)).filterMap fun r =>
    match rowGet col r.2 with
    | some Val.vNull => none
    | some v => some v
    | none => none

/-- Pandas `GroupBy` aggregation `'first'`: the first non-null value of
the column within the group (in row order), null when the group has no
non-null value. -/
def firstNonNull (key : String) (kv : Val) (col : String) (f : Frame) : Val :=
  (groupColVals key kv col f).headD Val.vNull

/-- `df.groupby(key).agg({c: 'first' for c in aggCols})`: one row per
distinct non-null key value, each aggregated column holding the group's
first non-null value. -/
def groupbyFirstAgg (key : String) (aggCols : List String) (f : Frame) : Frame :=
  { indexName := key, cols := aggCols,
    rows := (distinctKeyVals key f).map fun kv =>
      (kv, aggCols.map fun c => (c, firstNonNull key kv c f)) }

/-- The subject-metadata aggregation cell (cells `ibdCell4`, `phCell2`):
group the sample metadata by `host_subject_id`, aggregate the two retained
columns with `'first'`, and name the index `#SampleID`. -/
def subjectAgg (c1 c2 : String) (mf : Frame) : Frame :=
  setIdxName "#SampleID" (groupbyFirstAgg "host_subject_id" [c1, c2] mf)

/-- The subject-metadata aggregation cell of the TEMPTED document
(`mpCell8`), which additionally casts the index to strings. -/
def subjectAggStrIdx (c1 c2 : String) (mf : Frame) : Frame :=
  idxToStr (subjectAgg c1 c2 mf)

/-- Value of column `col` at the first-occurring row of the group `kv`
(nulls included).  This follows the specification's words "each retained
column holding the first-occurring sample's value for that subject"; it is
compared against the source's `'first'` aggregation, which skips nulls. -/
def specFirstSampleVal (key : String) (kv : Val) (col : String) (f : Frame) : Val :=
  match f.rows.filter (fun r => decide (rowGet key r.2 = some kv)) with
  | [] => Val.vNull
  | r :: _ => (rowGet col r.2).getD Val.vNull

/-! ### Input path inventories (for the frame conditions) -/

/-- The pre-existing data files the two IBD tutorials read: the feature
tables, sample metadata, insertion tree, taxonomy, and the
qurro-exported sample plot data. -/
def ibdInputPaths : List String :=
  ["IBD-2538/data/table.qza", "IBD-2538/data/rarefied-table.qza",
   "IBD-2538/data/metadata.tsv", "IBD-2538/data/sepp-insertion-tree.qza",
   "IBD-2538/data/taxonomy.qza", "IBD-2538/ctf-results/sample_plot_data.tsv"]

/-- The pre-existing data files the moving-pictures file reads: the
moving-pictures table, rooted tree, taxonomy and sample metadata, and the
ECAM table, metadata, insertion tree, taxonomy and qurro-exported sample
plot data. -/
def mpInputPaths : List String :=
  ["qiime2-moving-pictures-tutorial/table.qza",
   "qiime2-moving-pictures-tutorial/rooted-tree.qza",
   "qiime2-moving-pictures-tutorial/taxonomy.qza",
   "qiime2-moving-pictures-tutorial/sample-metadata.tsv",
   "ECAM-Qiita-10249/table.qza", "ECAM-Qiita-10249/metadata.tsv",
   "ECAM-Qiita-10249/insertion-tree.qza", "ECAM-Qiita-10249/taxonomy.qza",
   "ECAM-Qiita-10249/sample_plot_data.tsv"]

/-! ### Helper lemmas -/

/-- Running a notebook splits sequentially over concatenation of its cell
list. -/
theorem runNotebook_seq (s0 : FsState) (pre post : Notebook) :
    runNotebook s0 (pre ++ post) = runNotebook (runNotebook s0 pre) post := by
  simp [runNotebook, List.foldl_append]

/-- Looking up a selected column returns the (null-defaulted) value it had
before selection. -/
theorem rowGet_select_mem (cs : List String) (e : Entries) (c : String)
    (h : c ∈ cs) :
    rowGet c (cs.map fun c' => (c', (rowGet c' e).getD Val.vNull))
      = some ((rowGet c e).getD Val.vNull) := by
  induction cs with
  | nil => simp at h
  | cons c0 rest ih =>
    simp only [List.map_cons, rowGet]
    by_cases hc : c0 = c
    · subst hc; simp
    · rw [if_neg hc]
      rcases List.mem_cons.mp h with h1 | h2
      · exact absurd h1.symm hc
      · exact ih h2

/-- Every row surviving `dropna(subset=[c])` has a present, non-null value
in column `c`. -/
theorem mem_dropnaOn (c : String) (f : Frame) (r : Val × Entries)
    (h : r ∈ (dropnaOn c f).rows) :
    ∃ v, rowGet c r.2 = some v ∧ v ≠ Val.vNull := by
  have h2 := (List.mem_filter.mp h).2
  cases hv : rowGet c r.2 with
  | none => simp [presentNonNull, hv] at h2
  | some v =>
    cases v with
    | vNull => simp [presentNonNull, hv] at h2
    | vStr s => exact ⟨Val.vStr s, rfl, by intro hh; cases hh⟩
    | vNum n => exact ⟨Val.vNum n, rfl, by intro hh; cases hh⟩

/-- Postconditions of the log-ratio merge/export pipeline, for every pair
of input tables: the exported frame's index is named `#SampleID`, its
columns are exactly the state column, `host_subject_id`, the group column
and the log-ratio column in that order, and every exported row has a
present, non-null log-ratio value. -/
theorem mergeExport_props (sc gc lr : String) (m1 m2 : Frame) :
    (mergeExport sc gc lr m1 m2).indexName = "#SampleID"
    ∧ (mergeExport sc gc lr m1 m2).cols = [sc, "host_subject_id", gc, lr]
    ∧ ∀ r ∈ (mergeExport sc gc lr m1 m2).rows,
        (rowGet lr r.2).isSome ∧ rowGet lr r.2 ≠ some Val.vNull := by
  refine ⟨rfl, rfl, ?_⟩
  intro r hr
  have hcs : lr ∈ [sc, "host_subject_id", gc, lr] := by simp
  simp only [mergeExport, setIdxName, selectCols, idxToStr, List.map_map,
    List.mem_map, Function.comp] at hr
  obtain ⟨r1, hr1mem, hr1eq⟩ := hr
  obtain ⟨v, hv, hvnn⟩ := mem_dropnaOn lr _ r1 hr1mem
  have hget : rowGet lr r.2 = some ((rowGet lr r1.2).getD Val.vNull) := by
    rw [← hr1eq]
    exact rowGet_select_mem _ _ _ hcs
  rw [hv] at hget
  simp only [Option.getD_some] at hget
  refine ⟨by rw [hget]; rfl, ?_⟩
  rw [hget]
  intro hcontra
  exact hvnn (Option.some.inj hcontra)

/-- The property the merge/export cell guarantees for a given choice of
state, group and log-ratio columns, universally over the two input
tables. -/
def mergeExportOk (sc gc lr : String) : Prop :=
  ∀ m1 m2 : Frame,
    (mergeExport sc gc lr m1 m2).indexName = "#SampleID"
    ∧ (mergeExport sc gc lr m1 m2).cols = [sc, "host_subject_id", gc, lr]
    ∧ ∀ r ∈ (mergeExport sc gc lr m1 m2).rows,
        (rowGet lr r.2).isSome ∧ rowGet lr r.2 ≠ some Val.vNull

/-- Postconditions of the subject aggregation pipeline, for every input
table: index named `#SampleID`, columns exactly the two aggregated ones,
one row per distinct non-null subject, row keys exactly the distinct
subjects, and each row holding the group's first non-null value in each
aggregated column. -/
theorem subjectAgg_props (c1 c2 : String) (mf : Frame) :
    (subjectAgg c1 c2 mf).indexName = "#SampleID"
    ∧ (subjectAgg c1 c2 mf).cols = [c1, c2]
    ∧ (subjectAgg c1 c2 mf).rows.length
        = (distinctKeyVals "host_subject_id" mf).length
    ∧ (keys (subjectAgg c1 c2 mf)).Nodup
    ∧ (∀ v, v ∈ keys (subjectAgg c1 c2 mf)
        ↔ v ∈ keyValsRaw "host_subject_id" mf)
    ∧ ∀ r ∈ (subjectAgg c1 c2 mf).rows,
        r.2 = [(c1, firstNonNull "host_subject_id" r.1 c1 mf),
               (c2, firstNonNull "host_subject_id" r.1 c2 mf)] := by
  have hk : keys (subjectAgg c1 c2 mf) = distinctKeyVals "host_subject_id" mf := by
    simp only [keys, subjectAgg, setIdxName, groupbyFirstAgg, List.map_map]
    have hid : (Prod.fst ∘ fun kv : Val =>
        (kv, [(c1, firstNonNull "host_subject_id" kv c1 mf),
              (c2, firstNonNull "host_subject_id" kv c2 mf)])) = id := rfl
    simp only [List.map_cons, List.map_nil] at hid ⊢
    rw [hid, List.map_id]
  refine ⟨rfl, rfl, ?_, ?_, ?_, ?_⟩
  · simp [subjectAgg, setIdxName, groupbyFirstAgg]
  · rw [hk]; exact List.nodup_dedup _
  · intro v
    rw [hk]
    exact List.mem_dedup
  · intro r hr
    simp only [subjectAgg, setIdxName, groupbyFirstAgg, List.mem_map] at hr
    obtain ⟨kv, _, heq⟩ := hr
    subst heq
    rfl

/-- Postconditions of the TEMPTED document's subject aggregation (which
also casts the index to strings): index named `#SampleID`, columns exactly
the two aggregated ones, one row per distinct non-null subject, and each
row keyed by the string rendering of its subject and holding the group's
first non-null value in each aggregated column. -/
theorem subjectAggStrIdx_props (c1 c2 : String) (mf : Frame) :
    (subjectAggStrIdx c1 c2 mf).indexName = "#SampleID"
    ∧ (subjectAggStrIdx c1 c2 mf).cols = [c1, c2]
    ∧ (subjectAggStrIdx c1 c2 mf).rows.length
        = (distinctKeyVals "host_subject_id" mf).length
    ∧ ∀ r ∈ (subjectAggStrIdx c1 c2 mf).rows,
        ∃ kv ∈ distinctKeyVals "host_subject_id" mf,
          r.1 = valToStr kv
          ∧ r.2 = [(c1, firstNonNull "host_subject_id" kv c1 mf),
                   (c2, firstNonNull "host_subject_id" kv c2 mf)] := by
  refine ⟨rfl, rfl, ?_, ?_⟩
  · simp [subjectAggStrIdx, idxToStr, subjectAgg, setIdxName, groupbyFirstAgg]
  · intro r hr
    simp only [subjectAggStrIdx, idxToStr, subjectAgg, setIdxName,
      groupbyFirstAgg, List.map_map, List.mem_map, Function.comp] at hr
    obtain ⟨kv, hkv, heq⟩ := hr
    subst heq
    exact ⟨kv, hkv, rfl, rfl⟩

/-- The property the subject-aggregation cell guarantees for a given pair
of aggregated columns, universally over the input table. -/
def subjectAggOk (c1 c2 : String) : Prop :=
  ∀ mf : Frame,
    (subjectAgg c1 c2 mf).indexName = "#SampleID"
    ∧ (subjectAgg c1 c2 mf).cols = [c1, c2]
    ∧ (subjectAgg c1 c2 mf).rows.length
        = (distinctKeyVals "host_subject_id" mf).length
    ∧ (keys (subjectAgg c1 c2 mf)).Nodup
    ∧ (∀ v, v ∈ keys (subjectAgg c1 c2 mf)
        ↔ v ∈ keyValsRaw "host_subject_id" mf)
    ∧ ∀ r ∈ (subjectAgg c1 c2 mf).rows,
        r.2 = [(c1, firstNonNull "host_subject_id" r.1 c1 mf),
               (c2, firstNonNull "host_subject_id" r.1 c2 mf)]

/-- As `subjectAggOk`, for the TEMPTED document's variant with a string
index cast. -/
def subjectAggStrIdxOk (c1 c2 : String) : Prop :=
  ∀ mf : Frame,
    (subjectAggStrIdx c1 c2 mf).indexName = "#SampleID"
    ∧ (subjectAggStrIdx c1 c2 mf).cols = [c1, c2]
    ∧ (subjectAggStrIdx c1 c2 mf).rows.length
        = (distinctKeyVals "host_subject_id" mf).length
    ∧ ∀ r ∈ (subjectAggStrIdx c1 c2 mf).rows,
        ∃ kv ∈ distinctKeyVals "host_subject_id" mf,
          r.1 = valToStr kv
          ∧ r.2 = [(c1, firstNonNull "host_subject_id" kv c1 mf),
                   (c2, firstNonNull "host_subject_id" kv c2 mf)]

/-! ### Concrete sample tables (witness and counterexample inputs) -/

/-- A small sample-plot-data table as exported from qurro: one sample with
a log-ratio, one with a missing log-ratio. -/
def sampleQurroExport : Frame :=
  ⟨"sampleid", ["Current_Natural_Log_Ratio"],
   [(Val.vStr "s1", [("Current_Natural_Log_Ratio", Val.vNum 2)]),
    (Val.vStr "s2", [("Current_Natural_Log_Ratio", Val.vNull)])]⟩

/-- A small sample-metadata table with the columns the IBD merge cell
selects. -/
def sampleMetadataFrame : Frame :=
  ⟨"sampleid", ["timepoint", "host_subject_id", "ibd"],
   [(Val.vStr "s1",
      [("timepoint", Val.vNum 1), ("host_subject_id", Val.vStr "h1"),
       ("ibd", Val.vStr "CD")]),
    (Val.vStr "s3",
      [("timepoint", Val.vNum 2), ("host_subject_id", Val.vStr "h2"),
       ("ibd", Val.vStr "control")])]⟩

/-- The single row the merge pipeline exports from the two sample tables
above. -/
def mergedWitnessRow : Val × Entries :=
  (Val.vStr "s1",
   [("timepoint", Val.vNum 1), ("host_subject_id", Val.vStr "h1"),
    ("ibd", Val.vStr "CD"), ("Current_Natural_Log_Ratio", Val.vNum 2)])

/-- A small sample-metadata table with two samples of one subject, with
all aggregated columns present. -/
def sampleSubjectFrame : Frame :=
  ⟨"sampleid",
   ["host_subject_id", "ibd", "active_disease", "delivery", "antiexposedall"],
   [(Val.vStr "s1",
      [("host_subject_id", Val.vStr "h1"), ("ibd", Val.vStr "CD"),
       ("active_disease", Val.vStr "yes"), ("delivery", Val.vStr "vaginal"),
       ("antiexposedall", Val.vStr "n")]),
    (Val.vStr "s2",
      [("host_subject_id", Val.vStr "h1"), ("ibd", Val.vStr "CD"),
       ("active_disease", Val.vStr "no"), ("delivery", Val.vStr "vaginal"),
       ("antiexposedall", Val.vStr "y")])]⟩

/-- The single aggregated row `subjectAgg` produces from
`sampleSubjectFrame`. -/
def aggWitnessRow : Val × Entries :=
  (Val.vStr "h1", [("ibd", Val.vStr "CD"), ("active_disease", Val.vStr "yes")])

/-- A sample-metadata table on which the subject's first-occurring sample
has a null `ibd` value but a later sample has a non-null one. -/
def cexSubjectFrame : Frame :=
  ⟨"sampleid", ["host_subject_id", "ibd", "active_disease"],
   [(Val.vStr "s1",
      [("host_subject_id", Val.vStr "h1"), ("ibd", Val.vNull),
       ("active_disease", Val.vStr "yes")]),
    (Val.vStr "s2",
      [("host_subject_id", Val.vStr "h1"), ("ibd", Val.vStr "CD"),
       ("active_disease", Val.vStr "no")])]⟩

/-! ### Claims -/

/-- Claim C1 counterexample.  The first code cell of the CTF tutorial
contains `warnings.filterwarnings("ignore", category=DeprecationWarning)`,
an interpreter warning-filter configuration whose effect is none of the
three kinds the claim allows (loading a serialized artifact, calling a
plugin action, dataframe manipulation for display); the claim itself names
warning-filter configuration as excluded. -/
theorem c1_counterexample :
    PyStmt.warnFilter "ignore" "DeprecationWarning" ∈ ibdCell0
    ∧ ibdCell0 ∈ ibdNotebook ∧ ibdNotebook ∈ notebooks
    ∧ effectKind (PyStmt.warnFilter "ignore" "DeprecationWarning")
        ∉ [EffectKind.load, EffectKind.pluginAct, EffectKind.dfDisplay] := by
  decide

/-- Claim C1, amended.  Every statement of every code cell of the three
tutorial notebooks has one of seven effect kinds: loading serialized data,
invoking a plugin action (API or command line), in-memory dataframe
manipulation/display, module imports, interpreter warning-filter
configuration, writing a result file to disk, or a non-plugin shell
command (the directory change and the command-cache refresh); and each of
the three kinds beyond the claim's original three does occur. -/
theorem c1_effect_kinds :
    (notebooks.all fun nb => nb.all fun c => c.all fun s =>
       effectKind s ∈ [EffectKind.load, EffectKind.pluginAct, EffectKind.dfDisplay,
         EffectKind.importK, EffectKind.warnConfig, EffectKind.resultWrite,
         EffectKind.shellOther]) = true
    ∧ (notebooks.any fun nb => nb.any fun c => c.any fun s =>
         effectKind s = EffectKind.warnConfig) = true
    ∧ (notebooks.any fun nb => nb.any fun c => c.any fun s =>
         effectKind s = EffectKind.resultWrite) = true
    ∧ (notebooks.any fun nb => nb.any fun c => c.any fun s =>
         effectKind s = EffectKind.shellOther) = true := by
  exact ⟨by decide, by decide, by decide, by decide⟩

/-- Claim C2.  No statement of any code cell is a function or class
definition, loop, conditional, try/except, raise or with statement (so
each cell is a finite straight-line sequence of calls and no recursion can
be introduced); every gemelli action called through the Python API comes
from an import of the external plugin package
`qiime2.plugins.gemelli.actions`; and the embedded notebook semantics is a
total fold whose run splits sequentially over any decomposition of the
cell list, hence terminates on every input state. -/
theorem c2_straight_line :
    (notebooks.all fun nb => nb.all fun c => c.all fun s => !(isControlStmt s)) = true
    ∧ (notebooks.all gemelliCallsImported) = true
    ∧ ∀ (s0 : FsState) (pre post : Notebook),
        runNotebook s0 (pre ++ post) = runNotebook (runNotebook s0 pre) post := by
  exact ⟨by decide, by decide, runNotebook_seq⟩

/-- Claim C2 witness: the sequential-split component applied to a concrete
state and concrete cell lists. -/
theorem c2_straight_line_witness :
    runNotebook [] ([ibdCell0] ++ [ibdCell1])
      = runNotebook (runNotebook [] [ibdCell0]) [ibdCell1] :=
  c2_straight_line.2.2 [] [ibdCell0] [ibdCell1]

/-- Claim C3 counterexample.  The CTF tutorial also runs the gemelli
action `rpca` (plain Robust Aitchison PCA, producing a biplot that the
notebook plots with emperor), which is a fifth factorization method beyond
the four the claim says are exactly the ones run. -/
theorem c3_counterexample :
    ("rpca", ["biplot", "distance_matrix"]) ∈ gemelliPyCalls ibdNotebook
    ∧ "rpca" ∈ factActionsAll
    ∧ "rpca" ∉ fourNamedActions := by
  decide

/-- Claim C3, amended.  Each of the four named factorization methods (CTF,
Phylogenetic CTF, Phylogenetic Robust PCA, TEMPTED) is run by some cell;
the Python API channel and the command-line channel are each exercised by
some gemelli invocation; and the set of gemelli factorization actions run
is exactly these four together with plain `rpca`. -/
theorem c3_factorization_methods :
    (fourNamedActions.all fun a => factActionsAll.contains a) = true
    ∧ (notebooks.any fun nb => !(gemelliPyCalls nb).isEmpty) = true
    ∧ (notebooks.any fun nb => !(gemelliCliCalls nb).isEmpty) = true
    ∧ factActionsAll = ["rpca", "ctf", "phylogenetic_ctf_with_taxonomy",
        "tempted_factorize", "phylogenetic-rpca-with-taxonomy"] := by
  exact ⟨by decide, by decide, by decide, by decide⟩

/-- Claim C4 counterexample.  The first cell of the moving-pictures file
is the shell command `!cd qiime2-moving-pictures-tutorial`, which
interacts with the environment through a channel that is none of the three
the claim allows (artifact load/save, command-line plugin action
invocation, tab-separated metadata files). -/
theorem c4_counterexample :
    PyStmt.shellCd "qiime2-moving-pictures-tutorial" ∈ mpCell0
    ∧ mpCell0 ∈ movingPicturesNotebook ∧ movingPicturesNotebook ∈ notebooks
    ∧ envChannels (PyStmt.shellCd "qiime2-moving-pictures-tutorial")
        = [Channel.otherChan]
    ∧ Channel.otherChan ∉ [Channel.artifactFmt, Channel.pluginCli, Channel.tsvFile] := by
  decide

/-- Claim C4, amended.  Every environment interaction of every statement
goes through the artifact load/save format, a command-line plugin action
invocation, or a tab-separated file, except exactly two shell commands of
the moving-pictures file: the working-directory change and the framework's
`qiime dev refresh-cache`. -/
theorem c4_channels :
    (notebooks.all fun nb => nb.all fun c => c.all fun s =>
       ((envChannels s).all fun ch =>
          ch ∈ [Channel.artifactFmt, Channel.pluginCli, Channel.tsvFile])
       || s ∈ [PyStmt.shellCd "qiime2-moving-pictures-tutorial",
               PyStmt.shellQiime "dev" "refresh-cache" [] [] []]) = true := by
  decide

/-- Claim C5 counterexample.  The first cell of the CTF tutorial suppresses
warnings (`warnings.simplefilter(action='ignore',
category=FutureWarning)`), so warning-processing logic does originate in a
notebook cell. -/
theorem c5_counterexample :
    PyStmt.warnFilter "ignore" "FutureWarning" ∈ ibdCell0
    ∧ ibdCell0 ∈ ibdNotebook ∧ ibdNotebook ∈ notebooks
    ∧ processesErrWarn (PyStmt.warnFilter "ignore" "FutureWarning") = true := by
  decide

/-- Claim C5, amended.  No cell catches, raises or installs a handler for
errors; the only warning processing originating in the notebooks is the
filter configuration suppressing deprecation and future warnings in the
initial cells; and every warning in the notebooks' recorded outputs is
emitted by an external library (skbio or q2_longitudinal). -/
theorem c5_error_handling :
    (notebooks.all fun nb => nb.all fun c => c.all fun s => !(isErrCatchOrRaise s)) = true
    ∧ (notebooks.all fun nb => nb.all fun c => c.all fun s =>
         !(processesErrWarn s)
         || s ∈ [PyStmt.warnFilter "ignore" "DeprecationWarning",
                 PyStmt.warnFilter "ignore" "FutureWarning"]) = true
    ∧ (allRecordedWarnings.all fun w =>
         w.emitterPackage ∈ ["skbio", "q2_longitudinal"]) = true := by
  exact ⟨by decide, by decide, by decide⟩

/-- Claim C6.  In each notebook file the factorization results are chained
downstream, each consumption in a cell strictly after the producing cell:
the CTF subject biplot goes to the emperor biplot and to qurro, the
phylogenetic-CTF subject biplot goes to the empress community plot and to
qurro, the command-line RPCA ordination goes to the empress community plot
and to qurro, the TEMPTED individual biplot goes to the emperor biplot and
to qurro, and in each case the qurro cell precedes the cell reading the
exported log-ratio column, which precedes the `linear_mixed_effects`
call taking that column as its metric. -/
theorem c6_downstream_chaining :
    apiChain "ctf_results" "subject_biplot" "emperor" "biplot"
      "Current_Natural_Log_Ratio" "IBD-2538/ctf-results/sample_plot_data.tsv"
      ibdNotebook = true
    ∧ apiChain "ctf_results" "subject_biplot" "empress" "community_plot"
      "Current_Natural_Log_Ratio" "IBD-2538/ctf-results/sample_plot_data.tsv"
      phyloIbdNotebook = true
    ∧ cliChain "qiime2-moving-pictures-tutorial/phylo-ordination.qza"
      movingPicturesNotebook = true
    ∧ apiChain "tempted_res" "individual_biplot" "emperor" "biplot"
      "Current_Log_Ratio" "ECAM-Qiita-10249/sample_plot_data.tsv"
      movingPicturesNotebook = true := by
  exact ⟨by decide, by decide, by decide, by decide⟩

/-- Claim C7.  No statement of any cell creates threads or processes or
uses asynchronous execution, and the embedded program of each notebook is
the sequential composition of its cells' effects in cell order: running a
cell list splits over concatenation, and running a cons is running the
head cell then the rest. -/
theorem c7_sequential :
    (notebooks.all fun nb => nb.all fun c => c.all fun s => !(isConcurrencyStmt s)) = true
    ∧ (∀ (s0 : FsState) (pre post : Notebook),
        runNotebook s0 (pre ++ post) = runNotebook (runNotebook s0 pre) post)
    ∧ (∀ (s0 : FsState) (c : Cell) (nb : Notebook),
        runNotebook s0 (c :: nb) = runNotebook (runCell s0 c) nb) := by
  exact ⟨by decide, runNotebook_seq, fun _ _ _ => rfl⟩

/-- Claim C7 witness: the sequencing components applied to concrete
states and cell lists. -/
theorem c7_sequential_witness :
    runNotebook [] ([mpCell0] ++ [mpCell1])
      = runNotebook (runNotebook [] [mpCell0]) [mpCell1]
    ∧ runNotebook [] (mpCell0 :: [mpCell1])
      = runNotebook (runCell [] mpCell0) [mpCell1] :=
  ⟨c7_sequential.2.1 [] [mpCell0] [mpCell1], c7_sequential.2.2 [] mpCell0 [mpCell1]⟩

/-- Claim C8 counterexample.  In the moving-pictures file, cell 2 writes
the artifact `phylo-tree.qza` and cell 3 loads the same path as an input
(`--i-tree`), so a cell does write a file path that another cell loads as
an input. -/
theorem c8_counterexample :
    "qiime2-moving-pictures-tutorial/phylo-tree.qza" ∈ nbWrites movingPicturesNotebook
    ∧ "qiime2-moving-pictures-tutorial/phylo-tree.qza" ∈ nbReads movingPicturesNotebook
    ∧ movingPicturesNotebook ∈ notebooks := by
  decide

/-- Claim C8, amended.  The pre-existing data input files of each notebook
are read and never written, so they are unchanged by running the
notebooks; in the two API tutorials no written path is ever read at all,
and in the moving-pictures file the paths both written and read are
exactly the five intermediate artifacts the command-line RPCA produces for
later cells. -/
theorem c8_inputs_preserved :
    (ibdInputPaths.all fun p =>
       (nbReads ibdNotebook).contains p && !((nbWrites ibdNotebook).contains p)) = true
    ∧ (ibdInputPaths.all fun p =>
       (nbReads phyloIbdNotebook).contains p
       && !((nbWrites phyloIbdNotebook).contains p)) = true
    ∧ (mpInputPaths.all fun p =>
       (nbReads movingPicturesNotebook).contains p
       && !((nbWrites movingPicturesNotebook).contains p)) = true
    ∧ ((nbWrites ibdNotebook).all fun p => !((nbReads ibdNotebook).contains p)) = true
    ∧ ((nbWrites phyloIbdNotebook).all fun p =>
        !((nbReads phyloIbdNotebook).contains p)) = true
    ∧ ((nbWrites movingPicturesNotebook).filter
         fun p => (nbReads movingPicturesNotebook).contains p)
       = ["qiime2-moving-pictures-tutorial/phylo-ordination.qza",
          "qiime2-moving-pictures-tutorial/phylo-distance.qza",
          "qiime2-moving-pictures-tutorial/phylo-tree.qza",
          "qiime2-moving-pictures-tutorial/phylo-table.qza",
          "qiime2-moving-pictures-tutorial/phylo-taxonomy.qza"] := by
  exact ⟨by decide, by decide, by decide, by decide, by decide, by decide⟩

/-- Claim C9.  For every pair of input tables, the log-ratio merge cells
export a frame whose index is named `#SampleID`, whose columns are exactly
the state column, `host_subject_id`, the group column and the log-ratio
column in that order, and in which no row has a missing log-ratio value —
in the two IBD tutorials with columns
`timepoint`/`ibd`/`Current_Natural_Log_Ratio` and in the TEMPTED document
with `month`/`delivery`/`Current_Log_Ratio`. -/
theorem c9_merge_export :
    mergeExportOk "timepoint" "ibd" "Current_Natural_Log_Ratio"
    ∧ mergeExportOk "month" "delivery" "Current_Log_Ratio" :=
  ⟨mergeExport_props "timepoint" "ibd" "Current_Natural_Log_Ratio",
   mergeExport_props "month" "delivery" "Current_Log_Ratio"⟩

/-- Claim C9 witness: applied to the concrete sample tables and the
concrete exported row. -/
theorem c9_merge_export_witness :
    (mergeExport "timepoint" "ibd" "Current_Natural_Log_Ratio"
        sampleMetadataFrame sampleQurroExport).indexName = "#SampleID"
    ∧ (rowGet "Current_Natural_Log_Ratio" mergedWitnessRow.2).isSome
    ∧ rowGet "Current_Natural_Log_Ratio" mergedWitnessRow.2 ≠ some Val.vNull := by
  have h := c9_merge_export.1 sampleMetadataFrame sampleQurroExport
  have hm : mergedWitnessRow ∈ (mergeExport "timepoint" "ibd"
      "Current_Natural_Log_Ratio" sampleMetadataFrame sampleQurroExport).rows := by
    decide
  exact ⟨h.1, (h.2.2 mergedWitnessRow hm).1, (h.2.2 mergedWitnessRow hm).2⟩

/-- Claim C10 counterexample.  On a metadata table whose subject `h1` has
a null `ibd` value at its first-occurring sample `s1` and the value `CD`
at its second sample, the aggregation cell (pandas `'first'`, which skips
nulls) produces `CD` for `ibd`, not the first-occurring sample's value,
which is null. -/
theorem c10_counterexample :
    (subjectAgg "ibd" "active_disease" cexSubjectFrame).rows
      = [(Val.vStr "h1", [("ibd", Val.vStr "CD"),
                          ("active_disease", Val.vStr "yes")])]
    ∧ specFirstSampleVal "host_subject_id" (Val.vStr "h1") "ibd" cexSubjectFrame
        = Val.vNull
    ∧ Val.vStr "CD" ≠ Val.vNull := by
  exact ⟨by decide, by decide, by decide⟩

/-- Claim C10, amended.  For every input metadata table, the subject
aggregation cells produce a frame whose index is named `#SampleID`, whose
columns are exactly the two retained ones, with exactly one row per
distinct non-null `host_subject_id` value (row keys are exactly those
values, without duplicates), and with each retained column holding the
subject's first non-null value in order of appearance — in the two IBD
tutorials with columns `ibd`/`active_disease`, and in the TEMPTED document
(whose cell also casts the index to strings) with
`delivery`/`antiexposedall`. -/
theorem c10_subject_agg :
    subjectAggOk "ibd" "active_disease"
    ∧ subjectAggStrIdxOk "delivery" "antiexposedall" :=
  ⟨subjectAgg_props "ibd" "active_disease",
   subjectAggStrIdx_props "delivery" "antiexposedall"⟩

/-- Claim C10 witness: applied to the concrete sample table and the
concrete aggregated row. -/
theorem c10_subject_agg_witness :
    (subjectAgg "ibd" "active_disease" sampleSubjectFrame).indexName = "#SampleID"
    ∧ aggWitnessRow.2
        = [("ibd", firstNonNull "host_subject_id" aggWitnessRow.1 "ibd"
              sampleSubjectFrame),
           ("active_disease", firstNonNull "host_subject_id" aggWitnessRow.1
              "active_disease" sampleSubjectFrame)] := by
  have h := c10_subject_agg.1 sampleSubjectFrame
  exact ⟨h.1, h.2.2.2.2.2 aggWitnessRow (by decide)⟩

end GemelliNb
